import Mathlib

/-
Verification development for the DDoS detection stream consumer
(analysis_stream/stream_consumer.py, class DDoSDetector).

The Python code is shallowly embedded as follows:
- dictionary records become the structure Record, whose payload fields hold
  an Option PyVal (none = key absent), mirroring record.get;
- the external key-value store with per-key TTL (Redis) becomes Store:
  per-source maps from source_ip to a value paired with its expiry time;
  reads at time t treat a key as absent once t is at or past the expiry;
- Python numbers are idealized as Int / ℚ (the code's float arithmetic is
  treated as exact rational/real arithmetic);
- statistics.stdev is the square root of the sample variance; the Layer-2
  guard is embedded in an equivalent squared, decidable form, and the
  lemma layer2_cond_iff_sqrt proves it equivalent to the source's
  formulation baseline_avg + 2.0 * baseline_std < current_rate.
-/

/-- Values a payload field can hold after defensive parsing: Python None,
int, str, float or bool (extract_field can produce each of these). -/
inductive PyVal where
  | pnone : PyVal
  | pint : Int → PyVal
  | pstr : String → PyVal
  | pfloat : ℚ → PyVal
  | pbool : Bool → PyVal
deriving DecidableEq

/-- The numeric value of a PyVal under Python arithmetic comparison
(bool counts as 0/1, as in Python). -/
def PyVal.toNumQ : PyVal → Option ℚ
  | .pint n => some (n : ℚ)
  | .pfloat q => some q
  | .pbool b => some (if b then 1 else 0)
  | _ => none

/-- Python equality between payload values: numbers compare by value
across int/float/bool, strings by content, None equals None. -/
def pyEq (a b : PyVal) : Bool :=
  match a.toNumQ, b.toNumQ with
  | some x, some y => x == y
  | _, _ =>
    match a, b with
    | .pstr s, .pstr t => s == t
    | .pnone, .pnone => true
    | _, _ => false

/-- Python "x is None" on the result of record.get(key): true when the key
is absent or holds None. -/
def pyIsNone : Option PyVal → Bool
  | none => true
  | some .pnone => true
  | some _ => false

/-- A traffic record as assembled by consume_stream / process_record.
none models an absent dictionary key. -/
structure Record where
  timestamp : Option String := none
  source_ip : Option String := none
  dest_ip : Option String := none
  protocol : Option String := none
  flags : Option PyVal := none
  http_method : Option PyVal := none
  source_port : Option PyVal := none
  dest_port : Option PyVal := none
  packet_size : Option PyVal := none
  response_time_ms : Option PyVal := none
  is_attack : Bool := false
deriving DecidableEq

/-- A candidate alert as built by the rule layers: the dictionary keys
shared by every layer (type, severity, source_ip, confidence).  Layer
specific diagnostic keys (metric, threshold, baseline_avg, ...) are not
required by any claim and are omitted. -/
structure Alert where
  type : String
  severity : String
  source_ip : Option String
  confidence : ℚ
deriving DecidableEq

/-- The SourceObservation dictionary returned by update_ip_counters. -/
structure IpData where
  ip : String
  count : Int
  ports : List PyVal
  is_new_ip : Bool
deriving DecidableEq

/- Detection thresholds (DDoSDetector.__init__, self.thresholds). -/

def high_request_rate_threshold : Int := 5

def port_scan_threshold : Nat := 3

def new_ip_threshold : Int := 2

def baseline_window : ℚ := 300

def sigma_threshold : ℚ := 2

/-- Attack windows from dataset generation (DDoSDetector.__init__). -/
def attack_windows : List (Nat × Nat × String) :=
  [(15, 25, "syn_flood"), (40, 50, "http_flood"),
   (70, 80, "udp_flood"), (95, 105, "amplification")]

/- Baseline tracking.  A sample is (timestamp, requests_per_minute). -/

abbrev Sample := ℚ × ℚ

/-- Appending to a collections.deque with maxlen: the new element goes to
the right and, past maxlen, the leftmost element is silently evicted. -/
def deque_append (maxlen : Nat) (xs : List Sample) (x : Sample) : List Sample :=
  let ys := xs ++ [x]
  ys.drop (ys.length - maxlen)

/-- The popleft loop of update_baseline: drop leading samples whose
timestamp is older than the cutoff, stopping at the first recent one. -/
def evict_old (cutoff : ℚ) : List Sample → List Sample
  | [] => []
  | s :: rest => if s.1 < cutoff then evict_old cutoff rest else s :: rest

/-- DDoSDetector.update_baseline: append a synthetic sample of value 1 at
the current time to the maxlen-300 deque, then drop samples older than
baseline_window seconds. -/
def update_baseline (now : ℚ) (bd : List Sample) : List Sample :=
  evict_old (now - baseline_window) (deque_append 300 bd (now, 1))

/-- A whole run of baseline ticks starting from the empty window. -/
def run_baseline (ts : List ℚ) : List Sample :=
  ts.foldl (fun bd t => update_baseline t bd) []

/- statistics.mean and the sample variance underlying statistics.stdev,
idealized over ℚ. -/

def stats_mean (l : List ℚ) : ℚ := l.sum / l.length

def stats_variance (l : List ℚ) : ℚ :=
  ((l.map fun x => (x - stats_mean l) ^ 2).sum) / ((l.length : ℚ) - 1)

/-- The ANOMALOUS_TRAFFIC candidate built by detect_layer2_anomalies. -/
def anomalous_alert (d : IpData) : Alert :=
  { type := "ANOMALOUS_TRAFFIC", severity := "MEDIUM",
    source_ip := some d.ip, confidence := 7/10 }

/-- DDoSDetector.detect_layer2_anomalies: needs at least 10 baseline
samples; computes mean and sample standard deviation of the window's
request rates; with an observation present and a positive standard
deviation, fires when current_count exceeds mean plus sigma_threshold
standard deviations.  The guard is embedded in its equivalent squared
form to stay decidable; layer2_cond_iff_sqrt relates it to the source's
baseline_avg + 2.0 * baseline_std < current_rate. -/
def detect_layer2_anomalies (baseline_data : List Sample) (ip_data : Option IpData) :
    List Alert :=
  if baseline_data.length < 10 then []
  else
    let request_rates := baseline_data.map Prod.snd
    let avg := stats_mean request_rates
    let var := stats_variance request_rates
    match ip_data with
    | none => []
    | some d =>
      if 0 < var ∧ avg < (d.count : ℚ) ∧
          sigma_threshold ^ 2 * var < ((d.count : ℚ) - avg) ^ 2 then
        [anomalous_alert d]
      else []

theorem stats_variance_nonneg (l : List ℚ) (h : 2 ≤ l.length) : 0 ≤ stats_variance l := by
  unfold stats_variance
  apply div_nonneg
  · apply List.sum_nonneg
    intro x hx
    obtain ⟨y, _, rfl⟩ := List.mem_map.mp hx
    positivity
  · have : (2 : ℚ) ≤ (l.length : ℚ) := by exact_mod_cast h
    linarith

/-- The squared decidable guard of detect_layer2_anomalies is equivalent
to the source formulation using the standard deviation (the square root
of the sample variance). -/
theorem layer2_cond_iff_sqrt (c m v : ℚ) (hv : 0 ≤ v) :
    (0 < v ∧ m < c ∧ sigma_threshold ^ 2 * v < (c - m) ^ 2) ↔
    (0 < Real.sqrt (v : ℚ) ∧ (m : ℝ) + 2 * Real.sqrt (v : ℚ) < (c : ℝ)) := by
  have hvR : (0 : ℝ) ≤ (v : ℝ) := by exact_mod_cast hv
  constructor
  · rintro ⟨hv0, hmc, hsq⟩
    have hs : (0 : ℝ) < Real.sqrt v := Real.sqrt_pos.mpr (by exact_mod_cast hv0)
    refine ⟨hs, ?_⟩
    have hcm : (0 : ℝ) < (c : ℝ) - m := by
      have : m < c := hmc
      have := sub_pos.mpr this
      exact_mod_cast this
    have hsqR : 4 * (v : ℝ) < ((c : ℝ) - m) ^ 2 := by
      have h4 : (4 : ℚ) * v < (c - m) ^ 2 := by
        have : sigma_threshold ^ 2 = (4 : ℚ) := by norm_num [sigma_threshold]
        rwa [this] at hsq
      exact_mod_cast h4
    have hsqeq : (2 * Real.sqrt v) ^ 2 = 4 * (v : ℝ) := by
      rw [mul_pow, Real.sq_sqrt hvR]; ring
    nlinarith [Real.sqrt_nonneg (v : ℝ), hsqeq, hsqR, hcm]
  · rintro ⟨hs, hlt⟩
    have hv0 : (0 : ℚ) < v := by exact_mod_cast Real.sqrt_pos.mp hs
    have hcm : (0 : ℝ) < (c : ℝ) - m := by nlinarith [Real.sqrt_nonneg (v : ℝ)]
    have hmc : m < c := by
      have : (m : ℝ) < (c : ℝ) := by linarith
      exact_mod_cast this
    refine ⟨hv0, hmc, ?_⟩
    have hsqeq : (2 * Real.sqrt v) ^ 2 = 4 * (v : ℝ) := by
      rw [mul_pow, Real.sq_sqrt hvR]; ring
    have h4R : 4 * (v : ℝ) < ((c : ℝ) - m) ^ 2 := by
      nlinarith [Real.sqrt_nonneg (v : ℝ), hsqeq]
    have h4 : (4 : ℚ) * v < (c - m) ^ 2 := by exact_mod_cast h4R
    have : sigma_threshold ^ 2 = (4 : ℚ) := by norm_num [sigma_threshold]
    rw [this]
    exact h4

/- Per-source state manager (DDoSDetector.update_ip_counters) and its
Redis-backed store.  Keys of the form ip:SOURCE:count, ip:SOURCE:ports and
ip:SOURCE:first_seen are modelled as three maps keyed by the source ip;
each live entry carries its absolute expiry time. -/

/-- Python str.isdigit(): non-empty and all characters decimal digits. -/
def str_isdigit (s : String) : Bool := !s.data.isEmpty && s.data.all Char.isDigit

/-- int(s) for a purely-numeric string, digit by digit. -/
def str_to_nat (s : String) : Nat :=
  s.data.foldl (fun n c => 10 * n + (c.toNat - 48)) 0

/-- The combined isdigit test and int conversion the code applies to
string-typed numeric fields. -/
def parse_digits (s : String) : Option Nat :=
  if str_isdigit s then some (str_to_nat s) else none

/-- The coercion applied to dest_port on entry to update_ip_counters and
detect_layer3_patterns: a purely numeric string becomes an int, anything
else passes through unchanged. -/
def coerce_digits : PyVal → PyVal
  | .pstr s =>
    match parse_digits s with
    | some n => .pint n
    | none => .pstr s
  | v => v

/-- The packet_size normalization of detect_layer3_patterns: record.get
with default 0, numeric strings coerced to int, non-numeric strings and
None treated as 0; ints, floats and bools keep their Python numeric
value. -/
def coerce_packet_size : Option PyVal → ℚ
  | none => 0
  | some .pnone => 0
  | some (.pint n) => (n : ℚ)
  | some (.pfloat q) => q
  | some (.pbool b) => if b then 1 else 0
  | some (.pstr s) =>
    match parse_digits s with
    | some n => (n : ℚ)
    | none => 0

/-- The external key-value store: each per-source entry carries the value
and its absolute expiry time.  A read at time t sees the entry only while
t is strictly before the expiry. -/
structure Store where
  counts : String → Option (Int × ℚ)
  ports : String → Option (List PyVal × ℚ)
  first_seen : String → Option (ℚ × ℚ)

/-- The store with no keys set. -/
def empty_store : Store :=
  { counts := fun _ => none, ports := fun _ => none, first_seen := fun _ => none }

/-- Read the request counter before INCR: the stored value when live, 0
when absent or expired. -/
def read_count (st : Store) (ip : String) (now : ℚ) : Int :=
  match st.counts ip with
  | some (v, e) => if now < e then v else 0
  | none => 0

/-- Read the port list: the stored list when live, the empty list when
absent or expired. -/
def read_ports (st : Store) (ip : String) (now : ℚ) : List PyVal :=
  match st.ports ip with
  | some (l, e) => if now < e then l else []
  | none => []

/-- Redis EXISTS on the first_seen key. -/
def fs_exists (st : Store) (ip : String) (now : ℚ) : Bool :=
  match st.first_seen ip with
  | some (_, e) => decide (now < e)
  | none => false

/-- The request-count block of update_ip_counters: Redis INCR on the
source's counter (absent or expired reads as 0) followed by EXPIRE 60,
re-arming the TTL on every increment. -/
def incr_count (now : ℚ) (ip : String) (st : Store) : Int × Store :=
  let current_count := read_count st ip now + 1
  (current_count,
   { st with counts := fun k =>
       if k = ip then some (current_count, now + 60) else st.counts k })

/-- The ports block of update_ip_counters: the coerced dest_port is
appended only when no element of the live port list compares equal to
it, and only then is the list re-written with a fresh 60 s TTL. -/
def add_port (now : ℚ) (ip : String) (dp : PyVal) (st : Store) : List PyVal × Store :=
  let ports0 := read_ports st ip now
  if ports0.any fun p => pyEq p dp then (ports0, st)
  else
    (ports0 ++ [dp],
     { st with ports := fun k =>
         if k = ip then some (ports0 ++ [dp], now + 60) else st.ports k })

/-- The first_seen block of update_ip_counters: SETEX with a 1 h TTL only
when the key does not currently exist. -/
def set_first_seen (now : ℚ) (ip : String) (st : Store) : Store :=
  if fs_exists st ip now then st
  else
    { st with first_seen := fun k =>
        if k = ip then some (now, now + 3600) else st.first_seen k }

/-- DDoSDetector.update_ip_counters: rejects an empty or "nan" source_ip
with no observation and no store change; otherwise increments the
source's request counter (re-arming a 60 s TTL), appends the coerced
dest_port to the source's port list if absent (setting a 60 s TTL on the
list only in that case), records first_seen with a 1 h TTL when not yet
present, and returns the SourceObservation.  is_new_ip is true iff the
source has no entry in the in-process recency map (ip_history), which
this function reads but does not update. -/
def update_ip_counters (now : ℚ) (hist : List String) (r : Record) (st : Store) :
    Option IpData × Store :=
  let source_ip := r.source_ip.getD ""
  let dest_port := coerce_digits (r.dest_port.getD (.pstr ""))
  if source_ip = "" ∨ source_ip = "nan" then (none, st)
  else
    let cs := incr_count now source_ip st
    let ps := add_port now source_ip dest_port cs.2
    let st3 := set_first_seen now source_ip ps.2
    (some { ip := source_ip, count := cs.1, ports := ps.1,
            is_new_ip := decide (source_ip ∉ hist) }, st3)

/-- DDoSDetector.detect_layer1_attacks: fixed-threshold rules over the
SourceObservation; a no-op when there is none.  The three rules are
evaluated independently and their alerts concatenated in source order. -/
def detect_layer1_attacks (ip_data : Option IpData) (r : Record) : List Alert :=
  match ip_data with
  | none => []
  | some d =>
    (if high_request_rate_threshold < d.count then
      [{ type := "HIGH_REQUEST_RATE", severity := "HIGH",
         source_ip := some d.ip, confidence := 9/10 }]
     else [])
    ++ (if port_scan_threshold < d.ports.length then
      [{ type := "PORT_SCAN", severity := "MEDIUM",
         source_ip := some d.ip, confidence := 4/5 }]
     else [])
    ++ (if d.is_new_ip ∧ new_ip_threshold < d.count then
      [{ type := "NEW_IP_ATTACK", severity := "HIGH",
         source_ip := some d.ip, confidence := 17/20 }]
     else [])

/-- Python record.get(key) == some string constant. -/
def pv_eq_str (v : Option PyVal) (s : String) : Bool :=
  match v with
  | some w => pyEq w (.pstr s)
  | none => false

/-- Python membership of a (coerced) value in a list of int constants. -/
def pv_mem_ints (v : Option PyVal) (l : List Int) : Bool :=
  match v with
  | some w => l.any fun n => pyEq w (.pint n)
  | none => false

/-- DDoSDetector.detect_layer3_patterns: the three stateless pattern
checks (SYN flood, HTTP flood, UDP amplification), each evaluated
independently, their alerts concatenated in source order. -/
def detect_layer3_patterns (r : Record) : List Alert :=
  let packet_size := coerce_packet_size r.packet_size
  let syn :=
    if r.protocol = some "TCP" ∧ pv_eq_str r.flags "SYN" = true ∧
        pyIsNone r.response_time_ms = true ∧ packet_size < 100 then
      [{ type := "SYN_FLOOD_SUSPECT", severity := "MEDIUM",
         source_ip := r.source_ip, confidence := 3/5 }]
    else []
  let dest_port := (r.dest_port.map coerce_digits)
  let http :=
    if pv_mem_ints dest_port [80, 443, 8080] = true ∧
        (pv_eq_str r.http_method "GET" = true ∨ pv_eq_str r.http_method "POST" = true) then
      [{ type := "HTTP_FLOOD_SUSPECT", severity := "MEDIUM",
         source_ip := r.source_ip, confidence := 1/2 }]
    else []
  let udp :=
    if r.protocol = some "UDP" ∧ 2000 < packet_size then
      [{ type := "UDP_AMPLIFICATION_SUSPECT", severity := "HIGH",
         source_ip := r.source_ip, confidence := 4/5 }]
    else []
  syn ++ http ++ udp

/-- Python str.upper() for the ASCII window labels. -/
def str_upper (s : String) : String := String.mk (s.data.map Char.toUpper)

/-- The KNOWN_ alert built by correlate_with_known_attacks for a window
label. -/
def known_alert (label : String) (r : Record) : Alert :=
  { type := "KNOWN_" ++ str_upper label, severity := "HIGH",
    source_ip := r.source_ip, confidence := 19/20 }

/-- The for-loop of correlate_with_known_attacks: first window containing
the minute wins and the loop breaks. -/
def check_windows (cm : Nat) (r : Record) : List (Nat × Nat × String) → List Alert
  | [] => []
  | (s, e, label) :: rest =>
    if s ≤ cm ∧ cm < e then [known_alert label r] else check_windows cm r rest

/-- DDoSDetector.correlate_with_known_attacks: parse the record timestamp
into (hour, minute); on failure the except branch returns no alerts.
datetime.fromisoformat is an external stdlib collaborator, modelled by the
parse parameter returning the hour and minute on success. -/
def correlate_with_known_attacks (parse : String → Option (Nat × Nat)) (r : Record) :
    List Alert :=
  match parse (r.timestamp.getD "") with
  | none => []
  | some (h, m) => check_windows (h * 60 + m) r attack_windows

/- Alert emitter (DDoSDetector.generate_alert).  json.dumps followed by
json.loads on the alert dictionary is the identity on the JSON value, so
serialization is modelled at the level of the JSON tree the dictionary
denotes; deserialization is field lookup on that tree. -/

/-- A JSON value. -/
inductive Json where
  | jnull : Json
  | jstr : String → Json
  | jnum : ℚ → Json
  | jbool : Bool → Json
  | jobj : List (String × Json) → Json

/-- JSON encoding of an optional string (Python None becomes null). -/
def jsonOfOptStr : Option String → Json
  | some s => .jstr s
  | none => .jnull

/-- JSON encoding of an optional payload value. -/
def jsonOfOptPyVal : Option PyVal → Json
  | none => .jnull
  | some .pnone => .jnull
  | some (.pint n) => .jnum (n : ℚ)
  | some (.pfloat q) => .jnum q
  | some (.pbool b) => .jbool b
  | some (.pstr s) => .jstr s

/-- Field lookup in a JSON object (first binding of the key wins). -/
def lookup_field : List (String × Json) → String → Option Json
  | [], _ => none
  | (k, v) :: rest, key => if k = key then some v else lookup_field rest key

/-- Deserialize one field of a JSON value. -/
def Json.get : Json → String → Option Json
  | .jobj fields, key => lookup_field fields key
  | _, _ => none

/-- The metrics sub-object: the originating candidate dictionary. -/
def candidate_json (a : Alert) : Json :=
  .jobj [("type", .jstr a.type), ("severity", .jstr a.severity),
         ("source_ip", jsonOfOptStr a.source_ip), ("confidence", .jnum a.confidence)]

/-- DDoSDetector.generate_alert: the published alert dictionary.  The
emission timestamp (datetime.now().isoformat()) is the nowIso parameter.
Every layer-built candidate carries a source_ip key, so the Python
fallback to the record's source_ip in alert_data.get never applies to a
layer-produced candidate, and likewise every candidate carries its
confidence, so the 0.5 default is dead for them. -/
def generate_alert (alert_data : Alert) (r : Record) (nowIso : String) : Json :=
  .jobj [("timestamp", .jstr nowIso),
         ("alert_type", .jstr alert_data.type),
         ("severity", .jstr alert_data.severity),
         ("source_ip", jsonOfOptStr alert_data.source_ip),
         ("dest_ip", jsonOfOptStr r.dest_ip),
         ("protocol", jsonOfOptStr r.protocol),
         ("metrics", candidate_json alert_data),
         ("confidence", .jnum alert_data.confidence),
         ("record_data", .jobj
           [("timestamp", jsonOfOptStr r.timestamp),
            ("source_port", jsonOfOptPyVal r.source_port),
            ("dest_port", jsonOfOptPyVal r.dest_port),
            ("packet_size", jsonOfOptPyVal r.packet_size)])]

/- The per-record pipeline (DDoSDetector.process_record) and the
consumption loop (DDoSDetector.consume_stream). -/

/-- In-process detector state threaded through the pipeline. -/
structure DetState where
  store : Store
  ip_history : List String
  baseline_data : List Sample
  processed_records : Nat
  alerts_generated : Nat

/-- The detector as freshly constructed. -/
def init_det_state : DetState :=
  { store := empty_store, ip_history := [], baseline_data := [],
    processed_records := 0, alerts_generated := 0 }

/-- DDoSDetector.process_record: update per-source counters, tick the
baseline, run the four rule layers, emit each candidate.  The whole body
sits in a try/except; fault r = true models an unexpected exception
raised for this record while updating state or evaluating rules — it is
caught and the record contributes no emitted alert (the fault point is
modelled at entry; no claim concerns partially applied updates). -/
def process_record (fault : Record → Bool) (parse : String → Option (Nat × Nat))
    (now : ℚ) (nowIso : String) (r : Record) (st : DetState) : DetState × List Json :=
  if fault r then (st, [])
  else
    let upd := update_ip_counters now st.ip_history r st.store
    let ip_data := upd.1
    let bd := update_baseline now st.baseline_data
    let alerts :=
      detect_layer1_attacks ip_data r ++ detect_layer2_anomalies bd ip_data
        ++ detect_layer3_patterns r ++ correlate_with_known_attacks parse r
    let emitted := alerts.map fun a => generate_alert a r nowIso
    let hist1 :=
      match ip_data with
      | some d => st.ip_history ++ [d.ip]
      | none => st.ip_history
    ({ store := upd.2, ip_history := hist1, baseline_data := bd,
       processed_records := st.processed_records + 1,
       alerts_generated := st.alerts_generated + emitted.length }, emitted)

/-- One event observed by the consumption loop: a non-empty read batch of
(message id, record) pairs, an empty read, a transient read error (caught,
brief pause, retry), or a KeyboardInterrupt stop signal. -/
inductive LoopEvent where
  | batch : List (Nat × Record) → LoopEvent
  | readEmpty : LoopEvent
  | readError : LoopEvent
  | interrupt : LoopEvent

/-- Why the loop left its while-true state. -/
inductive StopReason where
  | deadlineHit : StopReason
  | interrupted : StopReason
deriving DecidableEq

/-- Loop-local state: the cursor (last processed message id), the detector
state and everything emitted so far. -/
structure LoopState where
  last_id : Nat
  det : DetState
  emitted : List Json

/-- The inner message loop of consume_stream: each record is processed
and the cursor advances to that record's id, including for records whose
processing faulted (process_record swallows the exception before
last_id is assigned). -/
def process_batch (fault : Record → Bool) (parse : String → Option (Nat × Nat))
    (isoOf : ℚ → String) (now : ℚ) (msgs : List (Nat × Record)) (ls : LoopState) :
    LoopState :=
  msgs.foldl
    (fun ls m =>
      let pr := process_record fault parse now (isoOf now) m.2 ls.det
      { last_id := m.1, det := pr.1, emitted := ls.emitted ++ pr.2 })
    ls

/-- DDoSDetector.consume_stream over a finite schedule of timed events:
at each iteration the optional wall-clock deadline is checked first, then
the event is handled.  A deadline hit or an interrupt is terminal; empty
reads and transient read errors leave the state unchanged and loop on.
Running out of scheduled events means the loop is still running (no stop
reason). -/
def consume_stream (fault : Record → Bool) (parse : String → Option (Nat × Nat))
    (isoOf : ℚ → String) (deadline : Option ℚ) (t0 : ℚ) :
    List (ℚ × LoopEvent) → LoopState → LoopState × Option StopReason
  | [], ls => (ls, none)
  | (t, ev) :: rest, ls =>
    if (match deadline with
        | some d => decide (t - t0 > d)
        | none => false) then
      (ls, some .deadlineHit)
    else
      match ev with
      | .interrupt => (ls, some .interrupted)
      | .readEmpty => consume_stream fault parse isoOf deadline t0 rest ls
      | .readError => consume_stream fault parse isoOf deadline t0 rest ls
      | .batch msgs =>
        consume_stream fault parse isoOf deadline t0 rest
          (process_batch fault parse isoOf t msgs ls)

/- Layer-2 characterization lemmas. -/

theorem detect_layer2_none (bd : List Sample) : detect_layer2_anomalies bd none = [] := by
  unfold detect_layer2_anomalies
  split <;> rfl

theorem detect_layer2_some_eq (bd : List Sample) (d : IpData) :
    detect_layer2_anomalies bd (some d) =
      if 10 ≤ bd.length ∧ 0 < stats_variance (bd.map Prod.snd) ∧
          stats_mean (bd.map Prod.snd) < (d.count : ℚ) ∧
          sigma_threshold ^ 2 * stats_variance (bd.map Prod.snd) <
            ((d.count : ℚ) - stats_mean (bd.map Prod.snd)) ^ 2
      then [anomalous_alert d] else [] := by
  simp only [detect_layer2_anomalies]
  split_ifs <;> first
    | rfl
    | omega
    | (rename_i hA hB; first
        | exact absurd hB.2 hA
        | exact absurd ⟨by omega, hA⟩ hB)

/-- C1: For every record, Layer 2 emits an ANOMALOUS_TRAFFIC alert with
severity MEDIUM and confidence 0.70 if and only if the baseline window
holds at least 10 samples, a SourceObservation is present, the sample
standard deviation of the window is strictly positive, and the
observation's current_count strictly exceeds mean plus 2.0 standard
deviations; in every other case Layer 2 emits nothing. -/
theorem c1_layer2_iff (bd : List Sample) (d : IpData) :
    detect_layer2_anomalies bd none = []
    ∧ (detect_layer2_anomalies bd (some d) = [] ∨
        detect_layer2_anomalies bd (some d) = [anomalous_alert d])
    ∧ anomalous_alert d = Alert.mk "ANOMALOUS_TRAFFIC" "MEDIUM" (some d.ip) (7/10)
    ∧ (detect_layer2_anomalies bd (some d) = [anomalous_alert d] ↔
        10 ≤ bd.length ∧
        0 < Real.sqrt (stats_variance (bd.map Prod.snd)) ∧
        (stats_mean (bd.map Prod.snd) : ℝ) +
          2 * Real.sqrt (stats_variance (bd.map Prod.snd)) < (d.count : ℝ)) := by
  refine ⟨detect_layer2_none bd, ?_, rfl, ?_⟩
  · rw [detect_layer2_some_eq]
    split_ifs <;> simp
  · rw [detect_layer2_some_eq]
    by_cases hc : 10 ≤ bd.length ∧ 0 < stats_variance (bd.map Prod.snd) ∧
        stats_mean (bd.map Prod.snd) < (d.count : ℚ) ∧
        sigma_threshold ^ 2 * stats_variance (bd.map Prod.snd) <
          ((d.count : ℚ) - stats_mean (bd.map Prod.snd)) ^ 2
    · rw [if_pos hc]
      have h2 : 2 ≤ (bd.map Prod.snd).length := by
        rw [List.length_map]; omega
      have hv := stats_variance_nonneg _ h2
      have hs := (layer2_cond_iff_sqrt (d.count : ℚ) (stats_mean (bd.map Prod.snd))
        (stats_variance (bd.map Prod.snd)) hv).mp ⟨hc.2.1, hc.2.2.1, hc.2.2.2⟩
      constructor
      · intro _
        refine ⟨hc.1, hs.1, ?_⟩
        have := hs.2
        push_cast at this ⊢
        linarith
      · intro _; rfl
    · rw [if_neg hc]
      constructor
      · intro h
        exact absurd h.symm (List.cons_ne_nil _ _)
      · rintro ⟨h10, hpos, hlt⟩
        exfalso
        have h2 : 2 ≤ (bd.map Prod.snd).length := by
          rw [List.length_map]; omega
        have hv := stats_variance_nonneg _ h2
        have hq := (layer2_cond_iff_sqrt (d.count : ℚ) (stats_mean (bd.map Prod.snd))
          (stats_variance (bd.map Prod.snd)) hv).mpr ⟨hpos, by push_cast; push_cast at hlt; linarith⟩
        exact hc ⟨h10, hq⟩

/- Helper lemmas for runs of baseline updates. -/

theorem evict_old_mem (c : ℚ) (l : List Sample) : ∀ s ∈ evict_old c l, s ∈ l := by
  induction l with
  | nil => simp [evict_old]
  | cons a t ih =>
    intro s hs
    simp only [evict_old] at hs
    split at hs
    · exact List.mem_cons_of_mem a (ih s hs)
    · exact hs

theorem update_baseline_mem (now : ℚ) (bd : List Sample) :
    ∀ s ∈ update_baseline now bd, s ∈ bd ++ [(now, 1)] := by
  intro s hs
  unfold update_baseline deque_append at hs
  have h1 := evict_old_mem _ _ s hs
  exact (List.drop_suffix _ _).subset h1

theorem foldl_baseline_ones (ts : List ℚ) :
    ∀ bd, (∀ s ∈ bd, s.2 = 1) →
      ∀ s ∈ ts.foldl (fun bd t => update_baseline t bd) bd, s.2 = 1 := by
  induction ts with
  | nil => intro bd h s hs; exact h s hs
  | cons t ts ih =>
    intro bd h s hs
    simp only [List.foldl_cons] at hs
    refine ih (update_baseline t bd) ?_ s hs
    intro u hu
    rcases List.mem_append.mp (update_baseline_mem t bd u hu) with h1 | h2
    · exact h u h1
    · simp only [List.mem_singleton] at h2
      rw [h2]

theorem run_baseline_ones (ts : List ℚ) : ∀ s ∈ run_baseline ts, s.2 = 1 :=
  foldl_baseline_ones ts [] (by simp)

theorem sum_of_ones (l : List ℚ) (h : ∀ x ∈ l, x = 1) : l.sum = l.length := by
  induction l with
  | nil => simp
  | cons a t ih =>
    simp only [List.sum_cons, List.length_cons]
    rw [h a (List.mem_cons_self a t), ih fun x hx => h x (List.mem_cons_of_mem a hx)]
    push_cast
    ring

theorem stats_mean_ones (l : List ℚ) (hne : l ≠ []) (h : ∀ x ∈ l, x = 1) :
    stats_mean l = 1 := by
  unfold stats_mean
  rw [sum_of_ones l h]
  have hl : l.length ≠ 0 := by
    simpa [List.length_eq_zero] using hne
  exact div_self (by exact_mod_cast hl)

theorem stats_variance_ones (l : List ℚ) (hne : l ≠ []) (h : ∀ x ∈ l, x = 1) :
    stats_variance l = 0 := by
  unfold stats_variance
  have hm := stats_mean_ones l hne h
  have hz : (l.map fun x => (x - stats_mean l) ^ 2).sum = 0 := by
    apply List.sum_eq_zero
    intro y hy
    obtain ⟨x, hx, rfl⟩ := List.mem_map.mp hy
    rw [h x hx, hm]
    ring
  rw [hz, zero_div]

/-- C2 (amended): in a run starting from an empty baseline window no
Layer-2 alert is ever emitted — during the first 9 ticks because the
window holds fewer than 10 samples, and from the 10th tick onward because
every appended sample has value 1, so the window's sample standard
deviation is 0 and the layer is a no-op even for a source whose
current_count exceeds mean plus 2 standard deviations. -/
theorem c2_amended_no_layer2_alert (ts : List ℚ) (ip : Option IpData) :
    detect_layer2_anomalies (run_baseline ts) ip = [] := by
  cases ip with
  | none => exact detect_layer2_none _
  | some d =>
    rw [detect_layer2_some_eq, if_neg]
    rintro ⟨h10, hv, -, -⟩
    have hne : run_baseline ts ≠ [] := by
      intro h
      rw [h] at h10
      simp at h10
    have hones : ∀ x ∈ (run_baseline ts).map Prod.snd, x = 1 := by
      intro x hx
      obtain ⟨s, hs, rfl⟩ := List.mem_map.mp hx
      exact run_baseline_ones ts s hs
    have hz : stats_variance ((run_baseline ts).map Prod.snd) = 0 :=
      stats_variance_ones _ (by simpa [List.map_eq_nil] using hne) hones
    rw [hz] at hv
    exact lt_irrefl 0 hv

set_option maxRecDepth 4000 in
/-- C2 counterexample: on the 10th baseline tick (ticks at seconds 0..9,
each appending a sample of value 1), a source with current_count 5 does
exceed mean plus 2 standard deviations of the window (1 + 2*0 = 1), yet
Layer 2 emits no ANOMALOUS_TRAFFIC alert, because the window's standard
deviation is 0 and the layer requires it to be strictly positive. -/
theorem c2_counterexample :
    (run_baseline [0, 1, 2, 3, 4, 5, 6, 7, 8, 9]).length = 10 ∧
    (stats_mean ((run_baseline [0, 1, 2, 3, 4, 5, 6, 7, 8, 9]).map Prod.snd) : ℝ) +
        2 * Real.sqrt
          (stats_variance ((run_baseline [0, 1, 2, 3, 4, 5, 6, 7, 8, 9]).map Prod.snd)) <
      (5 : ℝ) ∧
    detect_layer2_anomalies (run_baseline [0, 1, 2, 3, 4, 5, 6, 7, 8, 9])
      (some { ip := "10.0.0.5", count := 5, ports := [], is_new_ip := false }) = [] := by
  have hbd : run_baseline [0, 1, 2, 3, 4, 5, 6, 7, 8, 9] =
      [(0, 1), (1, 1), (2, 1), (3, 1), (4, 1), (5, 1), (6, 1), (7, 1), (8, 1), (9, 1)] := by
    norm_num [run_baseline, update_baseline, deque_append, evict_old, baseline_window]
  have hmap : (run_baseline [0, 1, 2, 3, 4, 5, 6, 7, 8, 9]).map Prod.snd =
      [1, 1, 1, 1, 1, 1, 1, 1, 1, 1] := by
    rw [hbd]
    rfl
  have hvar : stats_variance ((run_baseline [0, 1, 2, 3, 4, 5, 6, 7, 8, 9]).map Prod.snd) = 0 := by
    rw [hmap]
    norm_num [stats_variance, stats_mean]
  have hmean : stats_mean ((run_baseline [0, 1, 2, 3, 4, 5, 6, 7, 8, 9]).map Prod.snd) = 1 := by
    rw [hmap]
    norm_num [stats_mean]
  refine ⟨by rw [hbd]; rfl, ?_, ?_⟩
  · rw [hvar, hmean]
    norm_num [Real.sqrt_zero]
  · rw [detect_layer2_some_eq, if_neg]
    rintro ⟨-, hv, -, -⟩
    rw [hvar] at hv
    exact lt_irrefl 0 hv

/-- C3: For every record with a SourceObservation, Layer 1 emits a
PORT_SCAN alert (MEDIUM, confidence 0.80) if and only if the number of
distinct ports seen for the source is strictly greater than 3,
independent of the other Layer-1 rules; and a single record may yield
both HIGH_REQUEST_RATE and PORT_SCAN. -/
theorem c3_port_scan_independent :
    (∀ (d : IpData) (r : Record),
      (detect_layer1_attacks (some d) r).filter (fun a => a.type == "PORT_SCAN") =
        if port_scan_threshold < d.ports.length then
          [Alert.mk "PORT_SCAN" "MEDIUM" (some d.ip) (4/5)]
        else [])
    ∧ (∃ (d : IpData) (r : Record),
        Alert.mk "HIGH_REQUEST_RATE" "HIGH" (some d.ip) (9/10) ∈
            detect_layer1_attacks (some d) r ∧
          Alert.mk "PORT_SCAN" "MEDIUM" (some d.ip) (4/5) ∈
            detect_layer1_attacks (some d) r) := by
  constructor
  · intro d r
    simp only [detect_layer1_attacks, List.filter_append]
    split_ifs <;> simp [Alert.mk.injEq]
  · refine ⟨⟨"1.2.3.4", 6, [.pint 1, .pint 2, .pint 3, .pint 4], false⟩, {}, ?_, ?_⟩ <;>
      simp [detect_layer1_attacks, high_request_rate_threshold, port_scan_threshold,
        new_ip_threshold]

/- Layer-4 first-match lemma: the break-on-first-hit loop agrees with
List.find? over the window list. -/

theorem check_windows_eq_find (cm : Nat) (r : Record) (ws : List (Nat × Nat × String)) :
    check_windows cm r ws =
      match ws.find? fun w => decide (w.1 ≤ cm ∧ cm < w.2.1) with
      | none => []
      | some w => [known_alert w.2.2 r] := by
  induction ws with
  | nil => rfl
  | cons w ws ih =>
    obtain ⟨s, e, label⟩ := w
    by_cases h : s ≤ cm ∧ cm < e
    · rw [check_windows, if_pos h, List.find?_cons_of_pos _ (by simpa using h)]
    · rw [check_windows, if_neg h, List.find?_cons_of_neg _ (by simpa using h), ih]

/-- C4: For every record, Layer 4 emits exactly one KNOWN alert (HIGH,
confidence 0.95) labelled by the first matching window of the fixed
ordered window list when the timestamp's minutes-since-midnight lies in
some window; it emits nothing when no window matches (the record's
is_attack flag is never consulted, as the theorem holds for every
record) and nothing when the timestamp is unparseable. -/
theorem c4_known_window (parse : String → Option (Nat × Nat)) (r : Record) :
    attack_windows = [(15, 25, "syn_flood"), (40, 50, "http_flood"),
      (70, 80, "udp_flood"), (95, 105, "amplification")]
    ∧ (parse (r.timestamp.getD "") = none → correlate_with_known_attacks parse r = [])
    ∧ (∀ h m, parse (r.timestamp.getD "") = some (h, m) →
        ((attack_windows.find? (fun w => decide (w.1 ≤ h * 60 + m ∧ h * 60 + m < w.2.1)) =
              none →
            correlate_with_known_attacks parse r = [])
         ∧ ∀ s e label,
            attack_windows.find? (fun w => decide (w.1 ≤ h * 60 + m ∧ h * 60 + m < w.2.1)) =
                some (s, e, label) →
              correlate_with_known_attacks parse r =
                [Alert.mk ("KNOWN_" ++ str_upper label) "HIGH" r.source_ip (19/20)])) := by
  refine ⟨rfl, ?_, ?_⟩
  · intro h
    unfold correlate_with_known_attacks
    rw [h]
  · intro h m hp
    constructor
    · intro hf
      unfold correlate_with_known_attacks
      rw [hp]
      dsimp only
      rw [check_windows_eq_find, hf]
    · intro s e label hf
      unfold correlate_with_known_attacks
      rw [hp]
      dsimp only
      rw [check_windows_eq_find, hf]
      rfl

/-- Witness for C4: a timestamp parsing to minute 20 of the day falls in
the syn_flood window [15, 25) and yields exactly the KNOWN_SYN_FLOOD
alert. -/
theorem c4_witness :
    correlate_with_known_attacks (fun _ => some (0, 20)) {} =
      [Alert.mk "KNOWN_SYN_FLOOD" "HIGH" none (19/20)] := by
  have h := ((c4_known_window (fun _ => some (0, 20)) {}).2.2 0 20 rfl).2 15 25 "syn_flood" rfl
  rw [h]
  rfl

/-- C5: For every record, Layer 3 emits a SYN_FLOOD_SUSPECT alert
(MEDIUM, confidence 0.60) if and only if protocol is TCP, flags is SYN,
response_time_ms is null or absent, and the coerced packet_size is
strictly below 100; a purely numeric string packet_size is coerced to
its integer value, and a non-numeric string or a missing packet_size is
treated as 0 (which satisfies the size comparison). -/
theorem c5_syn_flood_iff (r : Record) (s : String) :
    ((detect_layer3_patterns r).filter (fun a => a.type == "SYN_FLOOD_SUSPECT") =
      if r.protocol = some "TCP" ∧ pv_eq_str r.flags "SYN" = true ∧
          pyIsNone r.response_time_ms = true ∧ coerce_packet_size r.packet_size < 100 then
        [Alert.mk "SYN_FLOOD_SUSPECT" "MEDIUM" r.source_ip (3/5)]
      else [])
    ∧ coerce_packet_size none = 0
    ∧ (parse_digits s = none → coerce_packet_size (some (.pstr s)) = 0)
    ∧ (∀ n, parse_digits s = some n → coerce_packet_size (some (.pstr s)) = (n : ℚ)) := by
  refine ⟨?_, rfl, ?_, ?_⟩
  · simp only [detect_layer3_patterns, List.filter_append]
    split_ifs <;> simp [Alert.mk.injEq]
  · intro h
    simp [coerce_packet_size, h]
  · intro n h
    simp [coerce_packet_size, h]

/-- Witness for C5: a TCP SYN record with no response time and a
non-numeric packet_size string is coerced to 0 and does fire the rule;
the numeric string "120" is coerced to the integer 120. -/
theorem c5_witness :
    coerce_packet_size (some (.pstr "abc")) = 0 ∧
    coerce_packet_size (some (.pstr "120")) = (120 : ℚ) ∧
    ((detect_layer3_patterns
        { protocol := some "TCP", flags := some (.pstr "SYN"),
          source_ip := some "9.9.9.9", packet_size := some (.pstr "abc") }).filter
      (fun a => a.type == "SYN_FLOOD_SUSPECT") =
      [Alert.mk "SYN_FLOOD_SUSPECT" "MEDIUM" (some "9.9.9.9") (3/5)]) := by
  have habc : coerce_packet_size (some (.pstr "abc")) = 0 :=
    (c5_syn_flood_iff {} "abc").2.2.1 rfl
  have h120 : coerce_packet_size (some (.pstr "120")) = (120 : ℚ) :=
    (c5_syn_flood_iff {} "120").2.2.2 120 rfl
  refine ⟨habc, h120, ?_⟩
  have h := (c5_syn_flood_iff
    { protocol := some "TCP", flags := some (.pstr "SYN"),
      source_ip := some "9.9.9.9", packet_size := some (.pstr "abc") } "abc").1
  rw [h, if_pos]
  refine ⟨rfl, rfl, rfl, ?_⟩
  show coerce_packet_size (some (.pstr "abc")) < 100
  rw [habc]
  norm_num

/-- C6: For every record whose source_ip is empty or the string "nan",
the per-source observe step returns no observation and leaves the store
untouched (no counter, port-set or first_seen update), and Layer 1
consequently emits no alerts for the record. -/
theorem c6_skip_invalid_source (r : Record) (now : ℚ) (hist : List String) (st : Store)
    (h : r.source_ip.getD "" = "" ∨ r.source_ip.getD "" = "nan") :
    update_ip_counters now hist r st = (none, st) ∧ detect_layer1_attacks none r = [] := by
  constructor
  · simp only [update_ip_counters]
    rw [if_pos h]
  · rfl

/-- Witness for C6: a record whose source_ip is the string "nan" makes
no observation, changes nothing and yields no Layer-1 alert. -/
theorem c6_witness :
    update_ip_counters 0 [] { source_ip := some "nan" } empty_store = (none, empty_store) ∧
    detect_layer1_attacks none { source_ip := some "nan" } = [] :=
  c6_skip_invalid_source { source_ip := some "nan" } 0 [] empty_store (Or.inr rfl)

/- Length and suffix lemmas for the baseline window. -/

theorem evict_old_suffix (c : ℚ) (l : List Sample) : evict_old c l <:+ l := by
  induction l with
  | nil => exact List.suffix_refl []
  | cons a t ih =>
    simp only [evict_old]
    split
    · exact ih.trans (List.suffix_cons a t)
    · exact List.suffix_refl _

theorem update_baseline_suffix (now : ℚ) (bd : List Sample) :
    update_baseline now bd <:+ bd ++ [(now, 1)] := by
  unfold update_baseline
  refine (evict_old_suffix _ _).trans ?_
  unfold deque_append
  exact List.drop_suffix _ _

theorem update_baseline_length (now : ℚ) (bd : List Sample) (h : bd.length ≤ 300) :
    (update_baseline now bd).length ≤ 300 := by
  unfold update_baseline
  have h1 := (evict_old_suffix (now - baseline_window) (deque_append 300 bd (now, 1))).length_le
  have h2 : (deque_append 300 bd (now, 1)).length ≤ 300 := by
    unfold deque_append
    simp only [List.length_drop, List.length_append, List.length_cons, List.length_nil]
    omega
  omega

/-- C10: The baseline window always holds at most 300 samples along any
run from the empty window; appending when the window already holds 300
silently evicts the oldest sample; and every update produces a suffix of
the old window extended by the new sample, so the statistics Layer 2
reads are always over at most the 300 most recent ticks. -/
theorem c10_baseline_bounded :
    (∀ ts : List ℚ, (run_baseline ts).length ≤ 300)
    ∧ (∀ (bd : List Sample) (now : ℚ), bd.length = 300 →
        deque_append 300 bd (now, 1) = bd.tail ++ [(now, 1)])
    ∧ (∀ (now : ℚ) (bd : List Sample), bd.length ≤ 300 →
        (update_baseline now bd).length ≤ 300)
    ∧ (∀ (now : ℚ) (bd : List Sample), update_baseline now bd <:+ bd ++ [(now, 1)]) := by
  refine ⟨?_, ?_, update_baseline_length, update_baseline_suffix⟩
  · intro ts
    have haux : ∀ (l : List ℚ) (bd : List Sample), bd.length ≤ 300 →
        (l.foldl (fun bd t => update_baseline t bd) bd).length ≤ 300 := by
      intro l
      induction l with
      | nil => intro bd h; simpa using h
      | cons t l ih =>
        intro bd h
        simp only [List.foldl_cons]
        exact ih _ (update_baseline_length t bd h)
    exact haux ts [] (by simp)
  · intro bd now h
    unfold deque_append
    simp only [List.length_append, List.length_cons, List.length_nil, h]
    rw [show (300 + (0 + 1) - 300 : Nat) = 1 by omega,
      List.drop_append_of_le_length (by omega), List.drop_one]

/-- Witness for C10: a full window of 300 samples loses its oldest
sample on append, and the tick keeps the window at 300 samples. -/
theorem c10_witness :
    deque_append 300 (List.replicate 300 ((0 : ℚ), (1 : ℚ))) (1, 1) =
      (List.replicate 300 ((0 : ℚ), (1 : ℚ))).tail ++ [(1, 1)] ∧
    (update_baseline 1 (List.replicate 300 ((0 : ℚ), (1 : ℚ)))).length ≤ 300 :=
  ⟨c10_baseline_bounded.2.1 _ 1 (List.length_replicate 300 _),
   c10_baseline_bounded.2.2.1 1 _ (le_of_eq (List.length_replicate 300 _))⟩

/- Store invariant for C9: live request counters are nonnegative and live
port lists are deduplicated (no two elements compare equal under
Python ==). -/

def StoreInv (st : Store) : Prop :=
  (∀ ip v e, st.counts ip = some (v, e) → 0 ≤ v) ∧
  (∀ ip l e, st.ports ip = some (l, e) → l.Pairwise fun a b => pyEq a b = false)

theorem read_count_nonneg (st : Store) (ip : String) (now : ℚ) (h : StoreInv st) :
    0 ≤ read_count st ip now := by
  cases hc : st.counts ip with
  | none => simp [read_count, hc]
  | some ve =>
    obtain ⟨v, e⟩ := ve
    simp only [read_count, hc]
    split
    · exact h.1 ip v e hc
    · exact le_refl 0

theorem read_ports_pairwise (st : Store) (ip : String) (now : ℚ) (h : StoreInv st) :
    (read_ports st ip now).Pairwise fun a b => pyEq a b = false := by
  cases hc : st.ports ip with
  | none => simp [read_ports, hc]
  | some le =>
    obtain ⟨l, e⟩ := le
    simp only [read_ports, hc]
    split
    · exact h.2 ip l e hc
    · simp

theorem ports_append_pairwise (l : List PyVal) (dp : PyVal)
    (hl : l.Pairwise fun a b => pyEq a b = false)
    (hn : (l.any fun p => pyEq p dp) = false) :
    (l ++ [dp]).Pairwise fun a b => pyEq a b = false := by
  rw [List.pairwise_append]
  refine ⟨hl, List.pairwise_singleton _ _, ?_⟩
  intro a ha b hb
  simp only [List.mem_singleton] at hb
  subst hb
  rw [List.any_eq_false] at hn
  simpa using hn a ha

theorem incr_count_inv (now : ℚ) (ip : String) (st : Store) (h : StoreInv st) :
    StoreInv (incr_count now ip st).2 := by
  constructor
  · intro k v e hk
    simp only [incr_count] at hk
    split at hk
    · obtain ⟨hv, -⟩ := Prod.mk.injEq .. ▸ Option.some.injEq .. ▸ hk
      have := read_count_nonneg st ip now h
      omega
    · exact h.1 k v e hk
  · intro k l e hk
    exact h.2 k l e hk

theorem add_port_inv (now : ℚ) (ip : String) (dp : PyVal) (st : Store) (h : StoreInv st) :
    StoreInv (add_port now ip dp st).2 := by
  simp only [add_port]
  split
  · exact h
  · rename_i hany
    constructor
    · intro k v e hk
      exact h.1 k v e hk
    · intro k l e hk
      simp only at hk
      split at hk
      · obtain ⟨hl, -⟩ := Prod.mk.injEq .. ▸ Option.some.injEq .. ▸ hk
        subst hl
        exact ports_append_pairwise _ _ (read_ports_pairwise st ip now h)
          (Bool.eq_false_iff.mpr hany)
      · exact h.2 k l e hk

theorem add_port_pairwise (now : ℚ) (ip : String) (dp : PyVal) (st : Store) (h : StoreInv st) :
    (add_port now ip dp st).1.Pairwise fun a b => pyEq a b = false := by
  simp only [add_port]
  split
  · exact read_ports_pairwise st ip now h
  · rename_i hany
    exact ports_append_pairwise _ _ (read_ports_pairwise st ip now h)
      (Bool.eq_false_iff.mpr hany)

theorem set_first_seen_inv (now : ℚ) (ip : String) (st : Store) (h : StoreInv st) :
    StoreInv (set_first_seen now ip st) := by
  unfold set_first_seen
  split
  · exact h
  · exact ⟨h.1, h.2⟩

theorem set_first_seen_ports (now : ℚ) (ip : String) (st : Store) :
    (set_first_seen now ip st).ports = st.ports := by
  unfold set_first_seen
  split <;> rfl

theorem update_ip_counters_inv (now : ℚ) (hist : List String) (r : Record) (st : Store)
    (h : StoreInv st) : StoreInv (update_ip_counters now hist r st).2 := by
  simp only [update_ip_counters]
  split
  · exact h
  · exact set_first_seen_inv _ _ _ (add_port_inv _ _ _ _ (incr_count_inv _ _ _ h))

/-- A whole sequence of observe calls, each at its own time and with its
own in-process recency map. -/
def observe_seq : List (ℚ × List String × Record) → Store → Store
  | [], st => st
  | (now, hist, r) :: rest, st => observe_seq rest (update_ip_counters now hist r st).2

theorem observe_seq_inv (evs : List (ℚ × List String × Record)) :
    ∀ st : Store, StoreInv st → StoreInv (observe_seq evs st) := by
  induction evs with
  | nil => intro st h; exact h
  | cons e rest ih =>
    obtain ⟨now, hist, r⟩ := e
    intro st h
    exact ih _ (update_ip_counters_inv now hist r st h)

theorem add_port_eq_of_mem (now : ℚ) (ip : String) (dp : PyVal) (st : Store)
    (h : ((read_ports st ip now).any fun p => pyEq p dp) = true) :
    add_port now ip dp st = (read_ports st ip now, st) := by
  simp only [add_port]
  rw [if_pos h]

theorem empty_store_inv : StoreInv empty_store := by
  constructor
  · intro ip v e h
    simp [empty_store] at h
  · intro ip l e h
    simp [empty_store] at h

/-- C9: Along every sequence of observe calls from a store satisfying the
invariant (which the empty store does), live request counters stay
nonnegative and live port lists stay deduplicated under Python equality;
every returned SourceObservation has a nonnegative count and a
deduplicated port list; and a repeated dest_port (one comparing equal to
a live stored port) leaves the stored port list — and hence
distinct_ports — unchanged. -/
theorem c9_source_state_invariant :
    StoreInv empty_store
    ∧ (∀ (evs : List (ℚ × List String × Record)) (st : Store),
        StoreInv st → StoreInv (observe_seq evs st))
    ∧ (∀ (now : ℚ) (hist : List String) (r : Record) (st : Store),
        StoreInv st → ∀ d, (update_ip_counters now hist r st).1 = some d →
          0 ≤ d.count ∧ d.ports.Pairwise fun a b => pyEq a b = false)
    ∧ (∀ (now : ℚ) (hist : List String) (r : Record) (st : Store) (l : List PyVal) (e : ℚ),
        ¬(r.source_ip.getD "" = "" ∨ r.source_ip.getD "" = "nan") →
        st.ports (r.source_ip.getD "") = some (l, e) → now < e →
        (l.any fun p => pyEq p (coerce_digits (r.dest_port.getD (.pstr "")))) = true →
          (update_ip_counters now hist r st).2.ports (r.source_ip.getD "") = some (l, e)
          ∧ ∃ d, (update_ip_counters now hist r st).1 = some d ∧ d.ports = l) := by
  refine ⟨empty_store_inv, observe_seq_inv, ?_, ?_⟩
  · intro now hist r st h d hd
    simp only [update_ip_counters] at hd
    split at hd
    · exact absurd hd (by simp)
    · obtain rfl := Option.some.injEq .. ▸ hd
      constructor
      · show (0 : Int) ≤ (incr_count now (r.source_ip.getD "") st).1
        have := read_count_nonneg st (r.source_ip.getD "") now h
        simp only [incr_count]
        omega
      · exact add_port_pairwise now _ _ _ (incr_count_inv now _ st h)
  · intro now hist r st l e hvalid hp hlive hmem
    simp only [update_ip_counters]
    rw [if_neg hvalid]
    have hports1 : (incr_count now (r.source_ip.getD "") st).2.ports = st.ports := rfl
    have hrp : read_ports (incr_count now (r.source_ip.getD "") st).2
        (r.source_ip.getD "") now = l := by
      simp [read_ports, hports1, hp, hlive]
    rw [add_port_eq_of_mem _ _ _ _ (by rw [hrp]; exact hmem)]
    refine ⟨?_, ⟨_, rfl, hrp⟩⟩
    show (set_first_seen now (r.source_ip.getD "")
      (incr_count now (r.source_ip.getD "") st).2).ports (r.source_ip.getD "") = some (l, e)
    rw [set_first_seen_ports, hports1]
    exact hp

/-- A store holding one live port 80 for source 1.2.3.4, for the C9
witness. -/
def repeat_store : Store :=
  { empty_store with
    ports := fun k => if k = "1.2.3.4" then some ([.pint 80], 60) else none }

/-- Witness for C9: one observation from the empty store keeps the
invariant, and re-observing port 80 for a source already holding a live
port 80 leaves the stored list and the observation's distinct ports at
exactly one entry. -/
theorem c9_witness :
    StoreInv (observe_seq
      [(0, [], { source_ip := some "1.2.3.4", dest_port := some (.pint 80) })] empty_store)
    ∧ ((update_ip_counters 2 [] { source_ip := some "1.2.3.4", dest_port := some (.pint 80) }
          repeat_store).2.ports "1.2.3.4" = some ([.pint 80], 60)
       ∧ ∃ d, (update_ip_counters 2 []
            { source_ip := some "1.2.3.4", dest_port := some (.pint 80) } repeat_store).1 =
              some d ∧ d.ports = [.pint 80]) := by
  refine ⟨c9_source_state_invariant.2.1 _ _ c9_source_state_invariant.1, ?_⟩
  exact c9_source_state_invariant.2.2.2 2 []
    { source_ip := some "1.2.3.4", dest_port := some (.pint 80) } repeat_store [.pint 80] 60
    (by simp) (by simp [repeat_store]) (by norm_num)
    (by simp [pyEq, PyVal.toNumQ, coerce_digits, parse_digits])

/- Loop lemmas for C7. -/

theorem process_batch_last_id (fault : Record → Bool) (parse : String → Option (Nat × Nat))
    (isoOf : ℚ → String) (now : ℚ) :
    ∀ (msgs : List (Nat × Record)) (ls : LoopState),
      (process_batch fault parse isoOf now msgs ls).last_id =
        (msgs.map Prod.fst).getLastD ls.last_id := by
  intro msgs
  induction msgs with
  | nil => intro ls; rfl
  | cons m ms ih =>
    intro ls
    show (process_batch fault parse isoOf now ms
      { last_id := m.1,
        det := (process_record fault parse now (isoOf now) m.2 ls.det).1,
        emitted := ls.emitted ++ (process_record fault parse now (isoOf now) m.2 ls.det).2
      }).last_id = _
    rw [ih, List.map_cons, List.getLastD_cons]

theorem consume_stop_cases (fault : Record → Bool) (parse : String → Option (Nat × Nat))
    (isoOf : ℚ → String) (deadline : Option ℚ) (t0 : ℚ) :
    ∀ (evs : List (ℚ × LoopEvent)) (ls : LoopState) (reason : StopReason),
      (consume_stream fault parse isoOf deadline t0 evs ls).2 = some reason →
        (reason = .deadlineHit ∧ deadline ≠ none) ∨
        (reason = .interrupted ∧ ∃ t, (t, LoopEvent.interrupt) ∈ evs) := by
  intro evs
  induction evs with
  | nil =>
    intro ls reason h
    simp [consume_stream] at h
  | cons e rest ih =>
    obtain ⟨t, ev⟩ := e
    intro ls reason h
    simp only [consume_stream] at h
    split at h
    · rename_i hd
      have h' : some StopReason.deadlineHit = some reason := h
      injection h' with h'
      subst h'
      left
      refine ⟨rfl, ?_⟩
      intro hnone
      rw [hnone] at hd
      simp at hd
    · cases ev with
      | interrupt =>
        have h' : some StopReason.interrupted = some reason := h
        injection h' with h'
        subst h'
        right
        exact ⟨rfl, ⟨t, List.mem_cons_self _ _⟩⟩
      | readEmpty =>
        rcases ih ls reason h with h1 | ⟨h2, t', ht'⟩
        · left; exact h1
        · right; exact ⟨h2, t', List.mem_cons_of_mem _ ht'⟩
      | readError =>
        rcases ih ls reason h with h1 | ⟨h2, t', ht'⟩
        · left; exact h1
        · right; exact ⟨h2, t', List.mem_cons_of_mem _ ht'⟩
      | batch msgs =>
        rcases ih _ reason h with h1 | ⟨h2, t', ht'⟩
        · left; exact h1
        · right; exact ⟨h2, t', List.mem_cons_of_mem _ ht'⟩

theorem consume_runs_to_end (fault : Record → Bool) (parse : String → Option (Nat × Nat))
    (isoOf : ℚ → String) (t0 : ℚ) :
    ∀ (evs : List (ℚ × LoopEvent)) (ls : LoopState),
      (∀ t, (t, LoopEvent.interrupt) ∉ evs) →
      (consume_stream fault parse isoOf none t0 evs ls).2 = none := by
  intro evs
  induction evs with
  | nil => intro ls _; rfl
  | cons e rest ih =>
    obtain ⟨t, ev⟩ := e
    intro ls h
    simp only [consume_stream]
    rw [if_neg (by simp)]
    cases ev with
    | interrupt => exact absurd (List.mem_cons_self _ _) (h t)
    | readEmpty => exact ih ls fun t' ht' => h t' (List.mem_cons_of_mem _ ht')
    | readError => exact ih ls fun t' ht' => h t' (List.mem_cons_of_mem _ ht')
    | batch msgs => exact ih _ fun t' ht' => h t' (List.mem_cons_of_mem _ ht')

/-- C7: a record whose processing faults contributes no emitted alert
(the exception is caught inside process_record); the cursor nevertheless
advances to each processed record's id, faulted or not (the batch's
final cursor is the last message id); the loop reports a stop reason
only for a wall-clock deadline (only when one is configured) or an
explicit interrupt event; and with no deadline and no interrupt in the
schedule the loop consumes every event without halting. -/
theorem c7_fault_isolation (fault : Record → Bool) (parse : String → Option (Nat × Nat))
    (isoOf : ℚ → String) :
    (∀ (now : ℚ) (iso : String) (r : Record) (st : DetState),
      fault r = true → (process_record fault parse now iso r st).2 = [])
    ∧ (∀ (now : ℚ) (msgs : List (Nat × Record)) (ls : LoopState),
        (process_batch fault parse isoOf now msgs ls).last_id =
          (msgs.map Prod.fst).getLastD ls.last_id)
    ∧ (∀ (deadline : Option ℚ) (t0 : ℚ) (evs : List (ℚ × LoopEvent)) (ls : LoopState)
        (reason : StopReason),
        (consume_stream fault parse isoOf deadline t0 evs ls).2 = some reason →
          (reason = .deadlineHit ∧ deadline ≠ none) ∨
          (reason = .interrupted ∧ ∃ t, (t, LoopEvent.interrupt) ∈ evs))
    ∧ (∀ (t0 : ℚ) (evs : List (ℚ × LoopEvent)) (ls : LoopState),
        (∀ t, (t, LoopEvent.interrupt) ∉ evs) →
          (consume_stream fault parse isoOf none t0 evs ls).2 = none) := by
  refine ⟨?_, ?_, ?_, ?_⟩
  · intro now iso r st h
    simp [process_record, h]
  · intro now msgs ls
    exact process_batch_last_id fault parse isoOf now msgs ls
  · intro deadline t0 evs ls reason h
    exact consume_stop_cases fault parse isoOf deadline t0 evs ls reason h
  · intro t0 evs ls h
    exact consume_runs_to_end fault parse isoOf t0 evs ls h

/-- Witness for C7: a record whose processing faults emits nothing, and
a schedule with no deadline and no interrupt leaves the loop running. -/
theorem c7_witness :
    (process_record (fun _ => true) (fun _ => none) 0 "" {} init_det_state).2 = []
    ∧ (consume_stream (fun _ => true) (fun _ => none) (fun _ => "") none 0
        [(0, LoopEvent.readEmpty)] ⟨0, init_det_state, []⟩).2 = none := by
  refine ⟨(c7_fault_isolation (fun _ => true) (fun _ => none) (fun _ => "")).1 0 "" {}
    init_det_state rfl, ?_⟩
  exact (c7_fault_isolation (fun _ => true) (fun _ => none) (fun _ => "")).2.2.2 0
    [(0, LoopEvent.readEmpty)] ⟨0, init_det_state, []⟩ (by intro t; simp)

/-- C8: For every candidate alert produced by any of the four rule
layers, deserializing the published alert's JSON encoding reproduces the
severity, confidence and source_ip exactly as the originating layer
assigned them. -/
theorem c8_roundtrip (a : Alert) (bd : List Sample) (ip : Option IpData)
    (parse : String → Option (Nat × Nat)) (r : Record) (iso : String)
    (h : a ∈ detect_layer1_attacks ip r ++ detect_layer2_anomalies bd ip
        ++ detect_layer3_patterns r ++ correlate_with_known_attacks parse r) :
    (generate_alert a r iso).get "severity" = some (.jstr a.severity)
    ∧ (generate_alert a r iso).get "confidence" = some (.jnum a.confidence)
    ∧ (generate_alert a r iso).get "source_ip" = some (jsonOfOptStr a.source_ip) :=
  ⟨rfl, rfl, rfl⟩

/-- Witness for C8: the Layer-4 KNOWN_SYN_FLOOD candidate for a record
parsed at minute 20 round-trips its HIGH severity, 0.95 confidence and
null source_ip through the emitted JSON. -/
theorem c8_witness :
    (Alert.mk "KNOWN_SYN_FLOOD" "HIGH" none (19/20) ∈
      detect_layer1_attacks none {} ++ detect_layer2_anomalies [] none
        ++ detect_layer3_patterns {} ++ correlate_with_known_attacks (fun _ => some (0, 20)) {})
    ∧ (generate_alert (Alert.mk "KNOWN_SYN_FLOOD" "HIGH" none (19/20)) {} "t").get "severity" =
        some (.jstr "HIGH")
    ∧ (generate_alert (Alert.mk "KNOWN_SYN_FLOOD" "HIGH" none (19/20)) {} "t").get "confidence" =
        some (.jnum (19/20))
    ∧ (generate_alert (Alert.mk "KNOWN_SYN_FLOOD" "HIGH" none (19/20)) {} "t").get "source_ip" =
        some (jsonOfOptStr none) := by
  have hmem : Alert.mk "KNOWN_SYN_FLOOD" "HIGH" none (19/20) ∈
      detect_layer1_attacks none {} ++ detect_layer2_anomalies [] none
        ++ detect_layer3_patterns {} ++
        correlate_with_known_attacks (fun _ => some (0, 20)) {} :=
    List.mem_singleton.mpr rfl
  obtain ⟨h1, h2, h3⟩ := c8_roundtrip _ [] none (fun _ => some (0, 20)) {} "t" hmem
  exact ⟨hmem, h1, h2, h3⟩
